import Mathlib

/-!
Verification of the purple_garden engine core (src/src/core/nodes.py):
scene-tree lifecycle, the signal/observer protocol, and the collision
subsystem (narrow phase, enter/exit edge detection, broad-phase bucketing).

Each Python construct the claims depend on is shallowly embedded below,
with comments pointing at the source lines it mirrors.
-/

set_option autoImplicit false

namespace PurpleGarden

/-! ### pygame `Rect` model

The engine stores collision geometry in pygame `Rect`s (integer left, top,
width, height).  `colliderect` tests strict overlap (rects that merely touch
do not collide, and a zero-sized rect never collides); `union` is a *pure*
function returning the smallest rect covering both (the in-place variant is
`union_ip`); a `Rect` is falsy iff its width or height is zero. -/

structure PRect where
  x : Int
  y : Int
  w : Int
  h : Int
deriving DecidableEq, Repr

/-- pygame `Rect.colliderect` for normalized rects: strict overlap on both
axes, with zero-sized rects never colliding. -/
def colliderect (a b : PRect) : Bool :=
  !(a.w == 0) && !(a.h == 0) && !(b.w == 0) && !(b.h == 0) &&
    decide (a.x < b.x + b.w) && decide (a.y < b.y + b.h) &&
    decide (a.x + a.w > b.x) && decide (a.y + a.h > b.y)

/-- pygame `Rect.union` (pure): smallest rect covering both arguments. -/
def unionRect (a b : PRect) : PRect :=
  let x := min a.x b.x
  let y := min a.y b.y
  ⟨x, y, max (a.x + a.w) (b.x + b.w) - x, max (a.y + a.h) (b.y + b.h) - y⟩

/-- pygame `Rect.__bool__`: a rect is truthy iff both width and height are
nonzero. -/
def rectTruthy (r : PRect) : Bool :=
  !(r.w == 0) && !(r.h == 0)

/-- Python truthiness of an `Optional[Rect]` (`None` is falsy, a rect is
truthy iff `rectTruthy`). -/
def optRectTruthy : Option PRect → Bool
  | none => false
  | some r => rectTruthy r

/-! ### Signal / observer protocol (`Entity.Signal`, nodes.py lines 96-160)

Observers are identified by numeric keys (Python object identity).  A
connected callback is modelled by the action it performs on the signal when
invoked: either nothing, or a single `disconnect(owner, target)` request on
this same signal — which is exactly the reentrancy scenario of the spec.
The observer mapping is an insertion-ordered association list, mirroring a
Python `dict`. -/

/-- Effect of one observer callback on the emitting signal. -/
inductive SAct where
  | nop : SAct
  | disc (owner target : Nat) : SAct
deriving DecidableEq, Repr

/-- Errors raised by signal operations (`NotOwner`, `NotConnected`) plus
Python's `TypeError` (raised by a failing tuple unpack). -/
inductive SigErr where
  | notOwner : SigErr
  | notConnected : SigErr
  | typeError : SigErr
deriving DecidableEq, Repr

/-- State of one `Entity.Signal` (nodes.py lines 155-160): the declared
owner, the insertion-ordered observer mapping, the `_is_emitting` flag and
the `_cache_disconnections` queue. -/
structure SigState where
  owner : Nat
  observers : List (Nat × SAct)
  isEmitting : Bool
  cacheDisc : List (Nat × Nat)
deriving DecidableEq, Repr

/-- `Signal.disconnect` (nodes.py lines 124-134): while emitting the request
is queued unconditionally; otherwise the owner is checked, then
`dict.pop(observer, None)` removes the entry (raising `NotConnected` when
the observer is absent). -/
def sigDisconnect (s : SigState) (owner target : Nat) : Except SigErr SigState :=
  if s.isEmitting then
    .ok { s with cacheDisc := s.cacheDisc ++ [(owner, target)] }
  else if owner ≠ s.owner then
    .error .notOwner
  else if s.observers.any (fun p => p.1 == target) then
    .ok { s with observers := s.observers.eraseP (fun p => p.1 == target) }
  else
    .error .notConnected

/-- One callback invocation during `emit` (nodes.py line 148): the stored
callable runs, and its modelled effect on this signal is applied. -/
def applyAct (s : SigState) : SAct → Except SigErr SigState
  | .nop => .ok s
  | .disc o t => sigDisconnect s o t

/-- The `for observer, data in self._observers.items()` loop of `emit`
(nodes.py lines 147-148), returning the invocation log (observer keys in
iteration order).  Because every callback effect is a disconnect request
and the flag is set, the mapping is never mutated mid-iteration, so
iterating the live dict equals iterating this snapshot. -/
def emitLoop : SigState → List (Nat × SAct) → Except SigErr (SigState × List Nat)
  | s, [] => .ok (s, [])
  | s, (k, act) :: rest => do
    let s1 ← applyAct s act
    let r ← emitLoop s1 rest
    .ok (r.1, k :: r.2)

/-- The drain loop of `emit` (nodes.py lines 152-153): while the queue is
nonempty, pop the front request and apply `disconnect` to it (the flag is
already cleared, so these disconnects mutate the mapping or raise). -/
def drainQueue : SigState → List (Nat × Nat) → Except SigErr SigState
  | s, [] => .ok s
  | s, (o, t) :: rest => do
    let s1 ← sigDisconnect { s with cacheDisc := rest } o t
    drainQueue s1 rest

/-- `Signal.emit` (nodes.py lines 140-153): set `_is_emitting`, invoke every
currently-registered callback in mapping order, clear the flag, then drain
the queued disconnects. -/
def sigEmit (s : SigState) : Except SigErr (SigState × List Nat) := do
  let s1 : SigState := { s with isEmitting := true }
  let r ← emitLoop s1 s1.observers
  let s2 : SigState := { r.1 with isEmitting := false }
  let s3 ← drainQueue s2 s2.cacheDisc
  .ok (s3, r.2)

/-- `Signal.disconnect_all` (nodes.py lines 136-138).  The source iterates
`for observer, _ in self._observers:` — iterating a dict yields its *keys*,
and each key is an entity object, not a pair, so the tuple unpack raises
`TypeError` on the first iteration whenever the mapping is nonempty.  (Had
the unpack succeeded, the loop would still mutate the dict while iterating
it.)  An empty mapping never enters the loop body. -/
def sigDisconnectAll (s : SigState) (_owner : Nat) : Except SigErr SigState :=
  match s.observers with
  | [] => .ok s
  | _ :: _ => .error .typeError

/-! ### Node tree model (`Node`, nodes.py lines 284-589)

A node carries an id (Python object identity), its `_is_on_tree` flag, its
`pause_mode` bit flags, and its ordered children.  The two-sorted mutual
inductive keeps every function structurally recursive. -/

mutual

inductive NodeT where
  | mk (id : Nat) (onTree : Bool) (pauseMode : Nat) (children : NodeList)

inductive NodeList where
  | nil : NodeList
  | cons (head : NodeT) (tail : NodeList) : NodeList

end

/-- Pause-mode bit flags (`Node.PauseModes`, nodes.py lines 290-297). -/
def TREE_PAUSED : Nat := 1

/-- Pause-mode flag suppressing the node and its children. -/
def STOP : Nat := 2

/-- Pause-mode flag keeping the node processing while an ancestor pauses. -/
def CONTINUE : Nat := 4

mutual

/-- Ids of a subtree in depth-first post-order: every node after all of its
children, children in their stored order. -/
def postIds : NodeT → List Nat
  | .mk i _ _ cs => postIdsL cs ++ [i]

/-- Post-order ids of a forest. -/
def postIdsL : NodeList → List Nat
  | .nil => []
  | .cons c rest => postIds c ++ postIdsL rest

end

mutual

/-- Whether every `_is_on_tree` flag in the subtree equals `b` (the source
invariant: a subtree is either fully on the tree or fully detached). -/
def allFlags : NodeT → Bool → Bool
  | .mk _ ofl _ cs, b => (ofl == b) && allFlagsL cs b

/-- `allFlags` over a forest. -/
def allFlagsL : NodeList → Bool → Bool
  | .nil, _ => true
  | .cons c rest, b => allFlags c b && allFlagsL rest b

end

/-! ### `Node.free` (nodes.py lines 362-371)

`free` first detaches from the parent — `remove_child` (lines 331-348)
deletes the node from the parent's child list, sets `_parent = None` and,
*iff the parent's `_is_on_tree` flag is set*, calls `_exit_tree`
(lines 419-425), which clears `_is_on_tree` on the whole subtree.  It then
frees every child over a copy of the children list, and finally emits
`freed`.

`freeAux t parentOn forcedOff` runs `t.free()` where `parentOn` is
"`t` has a parent and that parent's `_is_on_tree` flag is currently set"
and `forcedOff` records that an ancestor's `_exit_tree` has already cleared
every flag in this subtree (`_exit_tree` only clears flags, so instead of
rewriting the subtree we thread this bit).  It returns the final state of
every node of the subtree — after `free`, each node has been removed from
its parent (`_parent = None`) and has had all its children removed, so only
the final flag varies — together with the `freed` emission log in order. -/

/-- Final state of one freed node: its id, its `_is_on_tree` flag, its
(emptied) children list and its (cleared) parent reference. -/
structure FreedNode where
  id : Nat
  onTree : Bool
  childIds : List Nat
  parent : Option Nat
deriving DecidableEq, Repr

mutual

/-- `Node.free` on a subtree; see the section comment for the parameters. -/
def freeAux : NodeT → Bool → Bool → List FreedNode × List Nat
  | .mk i ofl _ cs, parentOn, forcedOff =>
    let cur := if forcedOff then false else ofl
    let on1 := if parentOn then false else cur
    let r := freeChildren cs on1 (forcedOff || parentOn)
    (⟨i, on1, [], none⟩ :: r.1, r.2 ++ [i])

/-- The `for child in children: child.free()` loop of `free` over the copied
children list: each child is freed with `parentOn` equal to the parent's
current flag (the parent was already detached in step one). -/
def freeChildren : NodeList → Bool → Bool → List FreedNode × List Nat
  | .nil, _, _ => ([], [])
  | .cons c rest, parentOn, forcedOff =>
    let rc := freeAux c parentOn forcedOff
    let rr := freeChildren rest parentOn forcedOff
    (rc.1 ++ rr.1, rc.2 ++ rr.2)

end

/-- `Node.free` at top level: `hasParent` tells whether the node still has a
parent and `parentOn` whether that parent is on the tree; step one
(`_exit_tree`) happens iff both hold. -/
def freeNode (t : NodeT) (hasParent parentOn : Bool) : List FreedNode × List Nat :=
  freeAux t (hasParent && parentOn) false

/-! ### `Node._propagate` (nodes.py lines 539-555)

`tree_pause = tree_pause | root.tree_pause | self.pause_mode`; children are
recursed into first; then `_process` runs unless
`tree_pause & STOP or tree_pause & TREE_PAUSED and not (self.pause_mode &
CONTINUE)`. -/

mutual

/-- `Node._propagate`: returns the ids of the nodes whose `_process` ran, in
execution order.  `g` is the global `root.tree_pause`, `acc` the
`tree_pause` argument passed by the parent. -/
def propagate : Nat → NodeT → Nat → List Nat
  | g, .mk i _ pm cs, acc =>
    let acc1 := (acc ||| g) ||| pm
    let childRuns := propagateL g cs acc1
    childRuns ++
      (if (acc1 &&& STOP != 0) || ((acc1 &&& TREE_PAUSED != 0) && !(pm &&& CONTINUE != 0))
       then [] else [i])

/-- `_propagate` over the children list, left to right. -/
def propagateL : Nat → NodeList → Nat → List Nat
  | _, .nil, _ => []
  | g, .cons c rest, acc => propagate g c acc ++ propagateL g rest acc

end

/-- The spec's wording of the run condition: the update runs unless the
accumulated state has `STOP` set (regardless of `CONTINUE`), or has
`TREE_PAUSED` set while the node's own `pause_mode` lacks `CONTINUE`. -/
def runsSpec (acc pm : Nat) : Bool :=
  (acc &&& STOP == 0) && ((acc &&& TREE_PAUSED == 0) || (pm &&& CONTINUE != 0))

mutual

/-- Post-order traversal paired with the accumulated pause state and the
node's own `pause_mode`: the reference against which `propagate` is
checked. -/
def postAcc : Nat → NodeT → Nat → List (Nat × Nat × Nat)
  | g, .mk i _ pm cs, acc =>
    let acc1 := (acc ||| g) ||| pm
    postAccL g cs acc1 ++ [(i, acc1, pm)]

/-- `postAcc` over a forest. -/
def postAccL : Nat → NodeList → Nat → List (Nat × Nat × Nat)
  | _, .nil, _ => []
  | g, .cons c rest, acc => postAcc g c acc ++ postAccL g rest acc

end

/-! ### Shape state and its mutators (`Shape`, nodes.py lines 1585-1652,
and `Entity.set_scale`, lines 258-259)

Scales are rationals (Python floats); a pygame `Rect` stores integers, so
assigning a float product to `rect.size` truncates toward zero. -/

/-- Python `int(...)` coercion applied when storing a float into a pygame
`Rect` field: truncation toward zero. -/
def pyTrunc (q : ℚ) : Int :=
  Int.tdiv q.num (q.den : Int)

/-- Observable state of one `Shape`: local position, local scale, the
`_base_size` array and the `_rect`. -/
structure ShapeSt where
  pos : Int × Int
  scale : ℚ × ℚ
  baseSize : Int × Int
  rect : PRect
deriving DecidableEq, Repr

/-- `Shape.set_rect` (nodes.py lines 1609-1612): stores the new rect, copies
its size into `_base_size`, and emits `rect_changed`.  The returned flag
records whether `rect_changed` was emitted. -/
def shapeSetRect (s : ShapeSt) (r : PRect) : ShapeSt × Bool :=
  ({ s with baseSize := (r.w, r.h), rect := r }, true)

/-- `Shape.set_base_size` (nodes.py lines 1617-1620): stores the new base
size, sets `rect.size = base_size * self.scale` (the *local* scale) and
emits `rect_changed`. -/
def shapeSetBaseSize (s : ShapeSt) (v : Int × Int) : ShapeSt × Bool :=
  ({ s with
      baseSize := v
      rect := { s.rect with
                  w := pyTrunc ((v.1 : ℚ) * s.scale.1)
                  h := pyTrunc ((v.2 : ℚ) * s.scale.2) } }, true)

/-- `Entity.set_scale` (nodes.py lines 258-259), the setter a plain `Shape`
inherits: it stores the scale and nothing else — the rect is untouched and
no signal is emitted. -/
def shapeSetScale (s : ShapeSt) (v : ℚ × ℚ) : ShapeSt × Bool :=
  ({ s with scale := v }, false)

/-- Mutation of `position`: a plain attribute assignment (`Entity.position`
has no property setter), so the rect is untouched and no signal is
emitted. -/
def shapeSetPosition (s : ShapeSt) (p : Int × Int) : ShapeSt × Bool :=
  ({ s with pos := p }, false)

/-- `Shape._draw` (nodes.py lines 1600-1604): during the draw pass the rect
is resynchronized, `rect.size = base_size * target_scale` (the *global*
scale) and `rect.topleft = target_pos - offset`. -/
def shapeDraw (s : ShapeSt) (targetPos : Int × Int) (targetScale : ℚ × ℚ)
    (offset : Int × Int) : ShapeSt :=
  { s with
      rect := ⟨targetPos.1 - offset.1, targetPos.2 - offset.2,
               pyTrunc ((s.baseSize.1 : ℚ) * targetScale.1),
               pyTrunc ((s.baseSize.2 : ℚ) * targetScale.2)⟩ }

/-! ### Narrow-phase tests (`Body.check_CC_collision`, nodes.py lines
2129-2140; `Body.check_CR_collision`, lines 2142-2164) -/

/-- `Body.check_CC_collision`: `dx`/`dy` are differences of
`_global_position + _scaled_radius` per axis, and the Euclidean distance is
compared strictly against the sum of the scaled radii.  Arguments: circle
`a`'s global position and scaled radius, then circle `b`'s. -/
def check_CC_collision (ax ay ar bx b_y br : ℝ) : Prop :=
  Real.sqrt (((ax + ar) - (bx + br)) * ((ax + ar) - (bx + br)) +
             ((ay + ar) - (b_y + br)) * ((ay + ar) - (b_y + br))) < ar + br

/-- `Body.check_CR_collision`: axis rejection against half-extent plus
radius, axis acceptance within the half-extent, else squared corner
distance against squared radius.  Arguments: circle global position and
scaled radius, then the rect shape's global position (its center for this
test) and the rect's width and height. -/
def check_CR_collision (cx cy r rx ry w h : ℚ) : Bool :=
  let dx := |cx - rx|
  let dy := |cy - ry|
  if dx > w / 2 + r then false
  else if dy > h / 2 + r then false
  else if dx ≤ w / 2 then true
  else if dy ≤ h / 2 then true
  else decide ((dx - w / 2) ^ 2 + (dy - h / 2) ^ 2 ≤ r ^ 2)

/-! ### `Body.bounds` memoization (nodes.py lines 2187-2204, 2111-2115)

The memo state is `_active_shapes` (the registered shapes' rects, in
registration order), the `_was_shapes_changed` flag set by
`_on_Shape_rect_changed`, and `_cached_bounds`. -/

/-- Memoization state of one `Body`'s bounds. -/
structure BoundsSt where
  activeShapes : List PRect
  wasChanged : Bool
  cachedBounds : Option PRect
deriving DecidableEq, Repr

/-- `Body.bounds` (nodes.py lines 2187-2204).  If `_was_shapes_changed`, the
cache is dropped and the flag cleared.  A truthy cache is returned as is.
Otherwise, with a nonempty `_active_shapes`, the cache is set to the
*first* shape's rect, and the loop `self._cached_bounds.union(shape.bounds())`
is executed over the remaining shapes — but pygame `Rect.union` is pure
(`union_ip` is the in-place variant), so every union result is discarded,
which the `_discarded` binding mirrors.  Returns the new memo state and the
returned rect. -/
def bodyBounds (s : BoundsSt) : BoundsSt × Option PRect :=
  let s1 := if s.wasChanged then { s with cachedBounds := none, wasChanged := false } else s
  if optRectTruthy s1.cachedBounds then (s1, s1.cachedBounds)
  else
    match s1.activeShapes with
    | [] => (s1, s1.cachedBounds)
    | r :: rest =>
      let _discarded := rest.map (fun sh => unionRect r sh)
      ({ s1 with cachedBounds := some r }, some r)

/-- `Body._on_Shape_rect_changed` (nodes.py lines 2111-2115): when the
reporting shape's rect is truthy, the shape is appended to `_active_shapes`
(again — the handler never removes the old entry) and the memo is
invalidated; a falsy (zero-sized) rect leaves the state untouched. -/
def onShapeRectChanged (s : BoundsSt) (r : PRect) : BoundsSt :=
  if rectTruthy r then { s with activeShapes := s.activeShapes ++ [r], wasChanged := true }
  else s

/-! ### Per-tick collision world (`Body._collide`, `Body._process`,
`PhysicsServer._check_collisions`/`process_collisions`)

Bodies are identified by index.  Each body carries the rects of its active
shapes (all rectangle shapes, so `is_colliding` dispatches to the
rect–rect entry `colliderect` of `COLLISION_TABLE`, nodes.py line 2170) and
its `_colliding_bodies` / `_last_colliding_bodies` lists.  Signal emissions
are recorded in an event log. -/

/-- One `body_entered` / `body_exited` emission: the emitting body's id and
the body passed as argument. -/
inductive PEv where
  | entered (self other : Nat) : PEv
  | exited (self other : Nat) : PEv
deriving DecidableEq, Repr

/-- Collision-relevant state of one `Body`. -/
structure WBody where
  shapes : List PRect
  colliding : List Nat
  lastColliding : List Nat
deriving DecidableEq, Repr

/-- The world: bodies by id, plus the chronological emission log. -/
structure World where
  bodies : List WBody
  log : List PEv
deriving DecidableEq, Repr

/-- Body lookup by id (defaulting to an inert empty body). -/
def getBody (w : World) (i : Nat) : WBody :=
  w.bodies.getD i ⟨[], [], []⟩

/-- Replace body `i`. -/
def setBody (w : World) (i : Nat) (b : WBody) : World :=
  { w with bodies := w.bodies.set i b }

/-- `Body.is_colliding` (nodes.py lines 2174-2185) for rectangle shapes:
true iff any active shape of `self` collides with any active shape of
`target` (rect–rect narrow phase is `colliderect`). -/
def isColliding (a b : WBody) : Bool :=
  a.shapes.any (fun ra => b.shapes.any (fun rb => colliderect ra rb))

/-- The value `Body.bounds()` returns for a body whose shapes were each
registered once and never mutated: the first active shape's rect (the
union loop's results are discarded, see `bodyBounds`), or `None` with no
shapes. -/
def boundsVal (b : WBody) : Option PRect :=
  b.shapes.head?

/-- Broad-phase rect test on the two bodies' `bounds()` values.  (With no
active shape `bounds()` is `None` and the Python call would raise; the
scenarios below always carry a shape.) -/
def optColliderect : Option PRect → Option PRect → Bool
  | some a, some b => colliderect a b
  | _, _ => false

/-- `Body._collide` (nodes.py lines 2117-2124), invoked on the *layer*-side
body with the mask-side body as argument: append to `_colliding_bodies`,
and emit `body_entered` only when the argument was not already in
`_last_colliding_bodies`. -/
def collideStep (w : World) (layerId maskId : Nat) : World :=
  let b := getBody w layerId
  let w1 := setBody w layerId { b with colliding := b.colliding ++ [maskId] }
  if maskId ∈ b.lastColliding then w1
  else { w1 with log := w1.log ++ [.entered layerId maskId] }

/-- `PhysicsServer._check_collisions` (nodes.py lines 3066-3081): every
mask-list member is tested against every layer-list member; when the cached
bounds overlap and the narrow phase confirms, `layer._collide(mask)` runs.
(The source precomputes the bounds pairs before the loops; `_collide` never
changes shapes, so reading them inside the fold is equivalent.) -/
def checkCollisions (w : World) (masks layers : List Nat) : World :=
  masks.foldl (fun wm m =>
    layers.foldl (fun wl l =>
      if optColliderect (boundsVal (getBody wl m)) (boundsVal (getBody wl l))
          && isColliding (getBody wl m) (getBody wl l)
      then collideStep wl l m
      else wl) wm) w

/-- The bookkeeping part of `Body._process` (nodes.py lines 2093-2106): emit
`body_exited` for every body in `_last_colliding_bodies` missing from
`_colliding_bodies`, then swap the two lists, clearing the new current
one. -/
def bodyProcess (w : World) (i : Nat) : World :=
  let b := getBody w i
  let exits := (b.lastColliding.filter (fun x => !(x ∈ b.colliding : Bool))).map
    (fun x => PEv.exited i x)
  { w with
      bodies := w.bodies.set i { b with lastColliding := b.colliding, colliding := [] }
      log := w.log ++ exits }

/-- The per-frame tree propagation as it affects bodies: every body's
`_process` runs (bodies in id order). -/
def processAll (w : World) : World :=
  (List.range w.bodies.length).foldl bodyProcess w

/-- `PhysicsServer.process_collisions` restricted to one subtype's spaces
(nodes.py lines 3010-3012 for areas): per bit-bucket,
`_check_collisions(space.masks, space.layers)`. -/
def processCollisions (w : World) (buckets : List (List Nat × List Nat)) : World :=
  buckets.foldl (fun w' sp => checkCollisions w' sp.1 sp.2) w

/-- One engine tick (nodes.py `SceneTree` main loop order): tree propagation
(each body's `_process`) followed by `PhysicsServer.process_collisions()`. -/
def tick (w : World) (buckets : List (List Nat × List Nat)) : World :=
  processCollisions (processAll w) buckets

/-- Replace body `i`'s shape rects (movement between ticks). -/
def setShapes (w : World) (i : Nat) (rs : List PRect) : World :=
  setBody w i { getBody w i with shapes := rs }

/-! ### Broad-phase pairing of `PhysicsServer.process_collisions`
(nodes.py lines 3008-3026, 3107-3126)

The server keeps, per `Body` subtype, a list of bit-indexed spaces, each
with a `masks` and a `layers` list.  `process_collisions` pairs, per area
space, masks with layers; per kinematic space up to the common length,
masks with layers and additionally the same-index static space's masks with
the kinematic layers; and masks with layers for the remaining kinematic
spaces.  Static layer lists are never visited. -/

/-- One bit-bucket of the server (`PhysicsServer.PhysicsSpace`). -/
structure PSpace where
  masks : List Nat
  layers : List Nat
deriving DecidableEq, Repr

/-- The server's three per-subtype space lists (`self.areas`,
`self.static_bodies`, `self.kinematic_bodies`). -/
structure ServerSt where
  areas : List PSpace
  staticBodies : List PSpace
  kinematicBodies : List PSpace
deriving DecidableEq, Repr

/-- The nested mask/layer loops of `_check_collisions`: every (mask, layer)
pair in order. -/
def pairsOf (masks layers : List Nat) : List (Nat × Nat) :=
  masks.flatMap (fun m => layers.map (fun l => (m, l)))

/-- Every (mask-side, layer-side) body pair that one
`process_collisions()` call submits to `_check_collisions`, in order
(nodes.py lines 3008-3026). -/
def collisionPairs (s : ServerSt) : List (Nat × Nat) :=
  let minLen := min s.kinematicBodies.length s.staticBodies.length
  (s.areas.flatMap (fun sp => pairsOf sp.masks sp.layers))
    ++ (((s.kinematicBodies.take minLen).zip (s.staticBodies.take minLen)).flatMap
        (fun p => pairsOf p.1.masks p.1.layers ++ pairsOf p.2.masks p.1.layers))
    ++ ((s.kinematicBodies.drop minLen).flatMap (fun sp => pairsOf sp.masks sp.layers))

/-- The three `Body` subtypes a body can be registered under
(`Body._BodyType`, consumed by `insert_body` through `self.MATCH`). -/
inductive BType where
  | area : BType
  | staticB : BType
  | kinematic : BType
deriving DecidableEq, Repr

/-- The registration invariant `insert_body` maintains: every body stored in
a subtype's spaces was registered under that subtype (`ty` gives each
body's registered subtype). -/
def WellTyped (s : ServerSt) (ty : Nat → BType) : Prop :=
  (∀ sp ∈ s.areas, (∀ b ∈ sp.masks, ty b = .area) ∧ (∀ b ∈ sp.layers, ty b = .area)) ∧
  (∀ sp ∈ s.staticBodies,
    (∀ b ∈ sp.masks, ty b = .staticB) ∧ (∀ b ∈ sp.layers, ty b = .staticB)) ∧
  (∀ sp ∈ s.kinematicBodies,
    (∀ b ∈ sp.masks, ty b = .kinematic) ∧ (∀ b ∈ sp.layers, ty b = .kinematic))

/-- A pair drawn from the fixed static–kinematic pairing: the mask side
comes from the static space at some bit index and the layer side from the
kinematic space at the same bit index. -/
def StaticKinPair (s : ServerSt) (p : Nat × Nat) : Prop :=
  ∃ i, ∃ hs : i < s.staticBodies.length, ∃ hk : i < s.kinematicBodies.length,
    p.1 ∈ (s.staticBodies.get ⟨i, hs⟩).masks ∧ p.2 ∈ (s.kinematicBodies.get ⟨i, hk⟩).layers

/-! ## Helper lemmas -/

/-- Monad bind on `Except` applied to a success is plain application. -/
theorem exceptOkBind {ε α β : Type} (a : α) (f : α → Except ε β) :
    (Except.ok a >>= f : Except ε β) = f a := rfl

/-- Invoking a run of observers whose callbacks do nothing leaves the signal
state unchanged and logs their keys in order. -/
theorem emitLoop_nop (ow : Nat) (obs0 : List (Nat × SAct)) (cd : List (Nat × Nat)) :
    ∀ (l : List (Nat × SAct)), (∀ p ∈ l, p.2 = SAct.nop) →
    emitLoop ⟨ow, obs0, true, cd⟩ l = .ok (⟨ow, obs0, true, cd⟩, l.map Prod.fst) := by
  intro l
  induction l with
  | nil => intro _; rfl
  | cons p rest ih =>
    intro h
    have hp : p.2 = SAct.nop := h p (by simp)
    obtain ⟨k, a⟩ := p
    simp only at hp
    subst hp
    simp [emitLoop, applyAct, exceptOkBind, ih (fun q hq => h q (by simp [hq]))]

/-- Running the emission loop over observers of which exactly one requests a
disconnect: the loop succeeds, no observer is skipped or doubled, the
mapping is untouched, and the single request sits in the queue. -/
theorem emitLoop_scenario (ow o t k : Nat) (obs0 : List (Nat × SAct)) :
    ∀ (pre : List (Nat × SAct)), (∀ p ∈ pre, p.2 = SAct.nop) →
    ∀ (post : List (Nat × SAct)), (∀ p ∈ post, p.2 = SAct.nop) →
    emitLoop ⟨ow, obs0, true, []⟩ (pre ++ (k, SAct.disc o t) :: post)
      = .ok (⟨ow, obs0, true, [(o, t)]⟩, (pre ++ (k, SAct.disc o t) :: post).map Prod.fst) := by
  intro pre
  induction pre with
  | nil =>
    intro _ post hpost
    simp only [List.nil_append, emitLoop, applyAct, sigDisconnect, if_pos rfl]
    simp [exceptOkBind, emitLoop_nop ow obs0 [(o, t)] post hpost]
  | cons p rest ih =>
    intro hpre post hpost
    have hp : p.2 = SAct.nop := hpre p (by simp)
    obtain ⟨k2, a⟩ := p
    simp only at hp
    subst hp
    simp [emitLoop, applyAct, exceptOkBind,
          ih (fun q hq => hpre q (by simp [hq])) post hpost]

/-- With distinct keys, `dict.pop` (remove first match) agrees with removing
every entry of that key. -/
theorem eraseP_key (t : Nat) : ∀ (l : List (Nat × SAct)), (l.map Prod.fst).Nodup →
    l.eraseP (fun p => p.1 == t) = l.filter (fun p => !(p.1 == t)) := by
  intro l
  induction l with
  | nil => intro _; rfl
  | cons p rest ih =>
    intro hnd
    simp only [List.map_cons, List.nodup_cons] at hnd
    by_cases hpt : p.1 = t
    · have hfix : ∀ q ∈ rest, (!(q.1 == t)) = true := by
        intro q hq
        have hne : q.1 ≠ t := fun h => hnd.1 (List.mem_map.mpr ⟨q, hq, h.trans hpt.symm⟩)
        simp [hne]
      rw [List.eraseP_cons_of_pos (by simp [hpt]), List.filter_cons_of_neg (by simp [hpt])]
      exact (List.filter_eq_self.mpr hfix).symm
    · rw [List.eraseP_cons_of_neg (by simp [hpt]), List.filter_cons_of_pos (by simp [hpt]),
          ih hnd.2]

/-- The Python run guard of `_propagate` is the complement of the spec's
`runsSpec` condition. -/
theorem skip_eq (acc pm : Nat) :
    ((acc &&& STOP != 0) || ((acc &&& TREE_PAUSED != 0) && !(pm &&& CONTINUE != 0)))
      = !(runsSpec acc pm) := by
  unfold runsSpec
  generalize acc &&& STOP = x
  generalize acc &&& TREE_PAUSED = y
  generalize pm &&& CONTINUE = z
  cases hx : x == 0 <;> cases hy : y == 0 <;> cases hz : z == 0 <;> simp [bne, hx, hy, hz]

mutual

/-- `_propagate` runs exactly the nodes selected by `runsSpec` over the
post-order traversal, in traversal order. -/
theorem propagate_eq_spec : ∀ (g : Nat) (t : NodeT) (acc : Nat),
    propagate g t acc = (postAcc g t acc).filterMap
      (fun e => if runsSpec e.2.1 e.2.2 = true then some e.1 else none)
  | g, .mk i ofl pm cs, acc => by
    have hc := propagateL_eq_spec g cs ((acc ||| g) ||| pm)
    simp only [propagate, postAcc, List.filterMap_append, hc, skip_eq]
    cases h : runsSpec ((acc ||| g) ||| pm) pm <;> simp [h]

/-- Forest version of `propagate_eq_spec`. -/
theorem propagateL_eq_spec : ∀ (g : Nat) (l : NodeList) (acc : Nat),
    propagateL g l acc = (postAccL g l acc).filterMap
      (fun e => if runsSpec e.2.1 e.2.2 = true then some e.1 else none)
  | _, .nil, _ => by simp [propagateL, postAccL]
  | g, .cons c rest, acc => by
    have h1 := propagate_eq_spec g c acc
    have h2 := propagateL_eq_spec g rest acc
    simp only [propagateL, postAccL, List.filterMap_append, h1, h2]

end

mutual

/-- The traversal used by `_propagate` visits ids in post-order. -/
theorem postAcc_ids : ∀ (g : Nat) (t : NodeT) (acc : Nat),
    (postAcc g t acc).map (fun e => e.1) = postIds t
  | g, .mk i ofl pm cs, acc => by
    have hc := postAccL_ids g cs ((acc ||| g) ||| pm)
    simp [postAcc, postIds, hc]

/-- Forest version of `postAcc_ids`. -/
theorem postAccL_ids : ∀ (g : Nat) (l : NodeList) (acc : Nat),
    (postAccL g l acc).map (fun e => e.1) = postIdsL l
  | _, .nil, _ => by simp [postAccL, postIdsL]
  | g, .cons c rest, acc => by
    have h1 := postAcc_ids g c acc
    have h2 := postAccL_ids g rest acc
    simp [postAccL, postIdsL, h1, h2]

end

mutual

/-- After `free`, every node of the subtree reports `_is_on_tree = false`,
empty children and no parent, provided the node was detached (all flags
already false), an ancestor cleared the flags, or the parent was on the
tree. -/
theorem freeAux_all_off : ∀ (t : NodeT) (pOn fOff : Bool),
    (pOn || fOff || allFlags t false) = true →
    ∀ e ∈ (freeAux t pOn fOff).1, e.onTree = false ∧ e.childIds = [] ∧ e.parent = none
  | .mk i ofl pm cs, pOn, fOff => by
    intro hp e he
    have hkids : (((if pOn then false else if fOff then false else ofl) : Bool)
        || (fOff || pOn) || allFlagsL cs false) = true := by
      cases pOn <;> cases fOff <;> simp_all [allFlags]
    have hrec := freeChildren_all_off cs (if pOn then false else if fOff then false else ofl)
      (fOff || pOn) hkids
    simp only [freeAux, List.mem_cons] at he
    rcases he with he | he
    · subst he
      refine ⟨?_, rfl, rfl⟩
      cases pOn <;> cases fOff <;> simp_all [allFlags]
    · exact hrec e he

/-- Forest version of `freeAux_all_off`. -/
theorem freeChildren_all_off : ∀ (l : NodeList) (pOn fOff : Bool),
    (pOn || fOff || allFlagsL l false) = true →
    ∀ e ∈ (freeChildren l pOn fOff).1, e.onTree = false ∧ e.childIds = [] ∧ e.parent = none
  | .nil, _, _ => by intro _ e he; simp [freeChildren] at he
  | .cons c rest, pOn, fOff => by
    intro hp e he
    have hc : (pOn || fOff || allFlags c false) = true := by
      cases pOn <;> cases fOff <;> simp_all [allFlagsL]
    have hr : (pOn || fOff || allFlagsL rest false) = true := by
      cases pOn <;> cases fOff <;> simp_all [allFlagsL]
    simp only [freeChildren, List.mem_append] at he
    rcases he with he | he
    · exact freeAux_all_off c pOn fOff hc e he
    · exact freeChildren_all_off rest pOn fOff hr e he

end

mutual

/-- `free` emits every `freed` signal in depth-first post-order: each node
only after all of its children. -/
theorem freeAux_log : ∀ (t : NodeT) (pOn fOff : Bool), (freeAux t pOn fOff).2 = postIds t
  | .mk i ofl pm cs, pOn, fOff => by
    simp only [freeAux, postIds]
    rw [freeChildren_log cs _ _]

/-- Forest version of `freeAux_log`. -/
theorem freeChildren_log : ∀ (l : NodeList) (pOn fOff : Bool),
    (freeChildren l pOn fOff).2 = postIdsL l
  | .nil, _, _ => by simp [freeChildren, postIdsL]
  | .cons c rest, pOn, fOff => by
    have h1 := freeAux_log c pOn fOff
    have h2 := freeChildren_log rest pOn fOff
    simp [freeChildren, postIdsL, h1, h2]

end

/-- Membership in the nested mask × layer loop pairs. -/
theorem mem_pairsOf {p : Nat × Nat} {ms ls : List Nat} :
    p ∈ pairsOf ms ls ↔ p.1 ∈ ms ∧ p.2 ∈ ls := by
  obtain ⟨m, l⟩ := p
  simp [pairsOf, List.mem_flatMap, List.mem_map]

/-! ## Claim theorems -/

/-- C1, counterexample.  Bodies A (id 0, layer side) and B (id 1, mask side)
have overlapping shapes; after one `process_collisions()` tick, B's
colliding set is empty and B emitted nothing — `body_entered` was emitted by
the layer-side body A with argument B, refuting the claim that A appears in
B's entered set with B's `body_entered` emitting A. -/
theorem c1_counterexample :
    (getBody (tick ⟨[⟨[⟨0,0,10,10⟩],[],[]⟩, ⟨[⟨5,5,10,10⟩],[],[]⟩], []⟩ [([1],[0])]) 1).colliding
      = [] ∧
    (tick ⟨[⟨[⟨0,0,10,10⟩],[],[]⟩, ⟨[⟨5,5,10,10⟩],[],[]⟩], []⟩ [([1],[0])]).log
      = [PEv.entered 0 1] ∧
    PEv.entered 1 0 ∉
      (tick ⟨[⟨[⟨0,0,10,10⟩],[],[]⟩, ⟨[⟨5,5,10,10⟩],[],[]⟩], []⟩ [([1],[0])]).log := by
  decide

/-- C1, amended.  For bodies A (id 0, presenting layer bit L: in the
bucket's `layers` list) and B (id 1, detecting bit L: in the bucket's
`masks` list) with overlapping shapes, one `process_collisions()` call
makes B appear in A's colliding set and A's `body_entered` emit with B
exactly once; a second tick with no movement re-emits nothing. -/
theorem c1_layer_side_enters_once (ra rb : PRect) (h : colliderect rb ra = true) :
    (getBody (tick ⟨[⟨[ra],[],[]⟩, ⟨[rb],[],[]⟩], []⟩ [([1],[0])]) 0).colliding = [1] ∧
    (tick ⟨[⟨[ra],[],[]⟩, ⟨[rb],[],[]⟩], []⟩ [([1],[0])]).log = [PEv.entered 0 1] ∧
    (tick (tick ⟨[⟨[ra],[],[]⟩, ⟨[rb],[],[]⟩], []⟩ [([1],[0])]) [([1],[0])]).log
      = [PEv.entered 0 1] := by
  have h1 : tick ⟨[⟨[ra],[],[]⟩, ⟨[rb],[],[]⟩], []⟩ [([1],[0])]
      = ⟨[⟨[ra],[1],[]⟩, ⟨[rb],[],[]⟩], [PEv.entered 0 1]⟩ := by
    simp [tick, processAll, processCollisions, checkCollisions, bodyProcess, collideStep,
          getBody, setBody, boundsVal, isColliding, optColliderect, h,
          show List.range 2 = [0,1] from rfl]
  have h2 : tick ⟨[⟨[ra],[1],[]⟩, ⟨[rb],[],[]⟩], [PEv.entered 0 1]⟩ [([1],[0])]
      = ⟨[⟨[ra],[1],[1]⟩, ⟨[rb],[],[]⟩], [PEv.entered 0 1]⟩ := by
    simp [tick, processAll, processCollisions, checkCollisions, bodyProcess, collideStep,
          getBody, setBody, boundsVal, isColliding, optColliderect, h,
          show List.range 2 = [0,1] from rfl]
  rw [h1, h2]
  simp [getBody]

/-- C1, witness for the amended theorem at concrete overlapping rects. -/
theorem c1_layer_side_enters_once_witness :
    colliderect ⟨5,5,10,10⟩ ⟨0,0,10,10⟩ = true ∧
    ((getBody (tick ⟨[⟨[⟨0,0,10,10⟩],[],[]⟩, ⟨[⟨5,5,10,10⟩],[],[]⟩], []⟩ [([1],[0])]) 0).colliding
        = [1] ∧
     (tick ⟨[⟨[⟨0,0,10,10⟩],[],[]⟩, ⟨[⟨5,5,10,10⟩],[],[]⟩], []⟩ [([1],[0])]).log
        = [PEv.entered 0 1] ∧
     (tick (tick ⟨[⟨[⟨0,0,10,10⟩],[],[]⟩, ⟨[⟨5,5,10,10⟩],[],[]⟩], []⟩ [([1],[0])])
        [([1],[0])]).log = [PEv.entered 0 1]) :=
  ⟨by decide, c1_layer_side_enters_once ⟨0,0,10,10⟩ ⟨5,5,10,10⟩ (by decide)⟩

/-- C2.  Bodies A (id 0: layer 1, mask 2) and B (id 1: layer 2, mask 1)
mutually detect each other.  They overlap during tick one and are moved
apart before tick two: the full log after the exits fire holds exactly one
`body_exited` per body, and a further tick is a fixed point — no further
emission of any kind while they stay separated. -/
theorem c2_exit_edge_detection (ra rb ra2 rb2 : PRect)
    (hab : colliderect rb ra = true) (hba : colliderect ra rb = true)
    (nab : colliderect rb2 ra2 = false) (nba : colliderect ra2 rb2 = false) :
    (tick (tick (setShapes (setShapes
        (tick ⟨[⟨[ra],[],[]⟩, ⟨[rb],[],[]⟩], []⟩ [([1],[0]),([0],[1])])
        0 [ra2]) 1 [rb2]) [([1],[0]),([0],[1])]) [([1],[0]),([0],[1])]).log
      = [PEv.entered 0 1, PEv.entered 1 0, PEv.exited 0 1, PEv.exited 1 0] ∧
    tick (tick (tick (setShapes (setShapes
        (tick ⟨[⟨[ra],[],[]⟩, ⟨[rb],[],[]⟩], []⟩ [([1],[0]),([0],[1])])
        0 [ra2]) 1 [rb2]) [([1],[0]),([0],[1])]) [([1],[0]),([0],[1])]) [([1],[0]),([0],[1])]
      = tick (tick (setShapes (setShapes
        (tick ⟨[⟨[ra],[],[]⟩, ⟨[rb],[],[]⟩], []⟩ [([1],[0]),([0],[1])])
        0 [ra2]) 1 [rb2]) [([1],[0]),([0],[1])]) [([1],[0]),([0],[1])] := by
  have h1 : tick ⟨[⟨[ra],[],[]⟩, ⟨[rb],[],[]⟩], []⟩ [([1],[0]),([0],[1])]
      = ⟨[⟨[ra],[1],[]⟩, ⟨[rb],[0],[]⟩], [PEv.entered 0 1, PEv.entered 1 0]⟩ := by
    simp [tick, processAll, processCollisions, checkCollisions, bodyProcess, collideStep,
          getBody, setBody, boundsVal, isColliding, optColliderect, hab, hba,
          show List.range 2 = [0,1] from rfl]
  rw [h1]
  have h2 : setShapes (setShapes (⟨[⟨[ra],[1],[]⟩, ⟨[rb],[0],[]⟩],
        [PEv.entered 0 1, PEv.entered 1 0]⟩ : World) 0 [ra2]) 1 [rb2]
      = ⟨[⟨[ra2],[1],[]⟩, ⟨[rb2],[0],[]⟩], [PEv.entered 0 1, PEv.entered 1 0]⟩ := by
    simp [setShapes, setBody, getBody]
  rw [h2]
  have h3 : tick (⟨[⟨[ra2],[1],[]⟩, ⟨[rb2],[0],[]⟩],
        [PEv.entered 0 1, PEv.entered 1 0]⟩ : World) [([1],[0]),([0],[1])]
      = ⟨[⟨[ra2],[],[1]⟩, ⟨[rb2],[],[0]⟩], [PEv.entered 0 1, PEv.entered 1 0]⟩ := by
    simp [tick, processAll, processCollisions, checkCollisions, bodyProcess, collideStep,
          getBody, setBody, boundsVal, isColliding, optColliderect, nab, nba,
          show List.range 2 = [0,1] from rfl]
  rw [h3]
  have h4 : tick (⟨[⟨[ra2],[],[1]⟩, ⟨[rb2],[],[0]⟩],
        [PEv.entered 0 1, PEv.entered 1 0]⟩ : World) [([1],[0]),([0],[1])]
      = ⟨[⟨[ra2],[],[]⟩, ⟨[rb2],[],[]⟩],
         [PEv.entered 0 1, PEv.entered 1 0, PEv.exited 0 1, PEv.exited 1 0]⟩ := by
    simp [tick, processAll, processCollisions, checkCollisions, bodyProcess, collideStep,
          getBody, setBody, boundsVal, isColliding, optColliderect, nab, nba,
          show List.range 2 = [0,1] from rfl]
  rw [h4]
  have h5 : tick (⟨[⟨[ra2],[],[]⟩, ⟨[rb2],[],[]⟩],
        [PEv.entered 0 1, PEv.entered 1 0, PEv.exited 0 1, PEv.exited 1 0]⟩ : World)
        [([1],[0]),([0],[1])]
      = ⟨[⟨[ra2],[],[]⟩, ⟨[rb2],[],[]⟩],
         [PEv.entered 0 1, PEv.entered 1 0, PEv.exited 0 1, PEv.exited 1 0]⟩ := by
    simp [tick, processAll, processCollisions, checkCollisions, bodyProcess, collideStep,
          getBody, setBody, boundsVal, isColliding, optColliderect, nab, nba,
          show List.range 2 = [0,1] from rfl]
  rw [h5]
  exact ⟨rfl, rfl⟩

/-- C2, witness at concrete rects: overlapping during tick one, far apart
afterwards. -/
theorem c2_exit_edge_detection_witness :
    (colliderect ⟨5,5,10,10⟩ ⟨0,0,10,10⟩ = true ∧
     colliderect ⟨0,0,10,10⟩ ⟨5,5,10,10⟩ = true ∧
     colliderect ⟨100,100,10,10⟩ ⟨0,0,10,10⟩ = false ∧
     colliderect ⟨0,0,10,10⟩ ⟨100,100,10,10⟩ = false) ∧
    ((tick (tick (setShapes (setShapes
        (tick ⟨[⟨[⟨0,0,10,10⟩],[],[]⟩, ⟨[⟨5,5,10,10⟩],[],[]⟩], []⟩ [([1],[0]),([0],[1])])
        0 [⟨0,0,10,10⟩]) 1 [⟨100,100,10,10⟩]) [([1],[0]),([0],[1])]) [([1],[0]),([0],[1])]).log
      = [PEv.entered 0 1, PEv.entered 1 0, PEv.exited 0 1, PEv.exited 1 0] ∧
    tick (tick (tick (setShapes (setShapes
        (tick ⟨[⟨[⟨0,0,10,10⟩],[],[]⟩, ⟨[⟨5,5,10,10⟩],[],[]⟩], []⟩ [([1],[0]),([0],[1])])
        0 [⟨0,0,10,10⟩]) 1 [⟨100,100,10,10⟩]) [([1],[0]),([0],[1])]) [([1],[0]),([0],[1])])
        [([1],[0]),([0],[1])]
      = tick (tick (setShapes (setShapes
        (tick ⟨[⟨[⟨0,0,10,10⟩],[],[]⟩, ⟨[⟨5,5,10,10⟩],[],[]⟩], []⟩ [([1],[0]),([0],[1])])
        0 [⟨0,0,10,10⟩]) 1 [⟨100,100,10,10⟩]) [([1],[0]),([0],[1])]) [([1],[0]),([0],[1])]) :=
  ⟨⟨by decide, by decide, by decide, by decide⟩,
   c2_exit_edge_detection ⟨0,0,10,10⟩ ⟨5,5,10,10⟩ ⟨0,0,10,10⟩ ⟨100,100,10,10⟩
     (by decide) (by decide) (by decide) (by decide)⟩

/-- C3.  A body with two registered shapes whose rects are (0,0,10,10) and
(100,100,10,10): `bounds()` returns only the first shape's rect, not the
union of both — the `union` results inside the loop are discarded because
pygame `Rect.union` is pure — contradicting the claim (and the spec) that
`bounds()` is the union of all active shapes' rects. -/
theorem c3_bounds_union_discarded :
    (bodyBounds ⟨[⟨0,0,10,10⟩, ⟨100,100,10,10⟩], true, none⟩).2 = some ⟨0,0,10,10⟩ ∧
    unionRect ⟨0,0,10,10⟩ ⟨100,100,10,10⟩ = ⟨0,0,110,110⟩ ∧
    (bodyBounds ⟨[⟨0,0,10,10⟩, ⟨100,100,10,10⟩], true, none⟩).2 ≠
      some (unionRect ⟨0,0,10,10⟩ ⟨100,100,10,10⟩) := by
  decide

/-- C4.  If, during `emit`, exactly one observer's callback calls
`disconnect` on this same signal (target `t`, any registered observer —
itself included), the emission returns successfully, every observer
registered at emission time is invoked exactly once in mapping order, and
the disconnect is applied only after the emission completes, leaving the
mapping without the target and the queue empty. -/
theorem c4_reentrant_disconnect_deferred (ow k t : Nat) (pre post : List (Nat × SAct))
    (hnd : ((pre ++ (k, SAct.disc ow t) :: post).map Prod.fst).Nodup)
    (hpre : ∀ p ∈ pre, p.2 = SAct.nop) (hpost : ∀ p ∈ post, p.2 = SAct.nop)
    (ht : t ∈ (pre ++ (k, SAct.disc ow t) :: post).map Prod.fst) :
    sigEmit ⟨ow, pre ++ (k, SAct.disc ow t) :: post, false, []⟩
      = .ok (⟨ow, (pre ++ (k, SAct.disc ow t) :: post).filter (fun p => !(p.1 == t)), false, []⟩,
             (pre ++ (k, SAct.disc ow t) :: post).map Prod.fst) := by
  have hany : (pre ++ (k, SAct.disc ow t) :: post).any (fun p => p.1 == t) = true := by
    rw [List.any_eq_true]
    rcases List.mem_map.mp ht with ⟨p, hp, hpt⟩
    exact ⟨p, hp, by simp [hpt]⟩
  simp only [sigEmit]
  rw [show ({ (⟨ow, pre ++ (k, SAct.disc ow t) :: post, false, []⟩ : SigState) with
        isEmitting := true } : SigState)
      = ⟨ow, pre ++ (k, SAct.disc ow t) :: post, true, []⟩ from rfl]
  rw [emitLoop_scenario ow ow t k _ pre hpre post hpost]
  simp only [exceptOkBind]
  simp only [drainQueue, sigDisconnect]
  simp [hany, eraseP_key t _ hnd, exceptOkBind]

/-- C4, witness: three observers, the middle one disconnecting itself. -/
theorem c4_reentrant_disconnect_deferred_witness :
    ((([(1, SAct.nop)] ++ (2, SAct.disc 0 2) :: [(3, SAct.nop)]).map Prod.fst).Nodup ∧
     (∀ p ∈ [((1:Nat), SAct.nop)], p.2 = SAct.nop) ∧
     (∀ p ∈ [((3:Nat), SAct.nop)], p.2 = SAct.nop) ∧
     2 ∈ (([(1, SAct.nop)] ++ (2, SAct.disc 0 2) :: [(3, SAct.nop)]).map Prod.fst)) ∧
    sigEmit ⟨0, [(1, SAct.nop)] ++ (2, SAct.disc 0 2) :: [(3, SAct.nop)], false, []⟩
      = .ok (⟨0, ([(1, SAct.nop)] ++ (2, SAct.disc 0 2) :: [(3, SAct.nop)]).filter
               (fun p => !(p.1 == 2)), false, []⟩,
             ([(1, SAct.nop)] ++ (2, SAct.disc 0 2) :: [(3, SAct.nop)]).map Prod.fst) :=
  ⟨⟨by decide, by decide, by decide, by decide⟩,
   c4_reentrant_disconnect_deferred 0 2 2 [(1, SAct.nop)] [(3, SAct.nop)]
     (by decide) (by decide) (by decide) (by decide)⟩

/-- C5.  `disconnect_all` on a signal with one connected observer does not
disconnect anything: the loop `for observer, _ in self._observers:`
iterates the dict's keys and unpacking an entity key as a pair raises
`TypeError` immediately, so a subsequent emit would still invoke the
callback — the claim's described behavior never happens on a nonempty
observer set. -/
theorem c5_disconnect_all_raises :
    sigDisconnectAll ⟨0, [(1, SAct.nop)], false, []⟩ 0 = .error .typeError := rfl

/-- C6, counterexample.  A parentless node whose `_is_on_tree` flag is set
(the scene-tree root: `SceneTree.__init__` sets `_is_on_tree = True` and
the root has no parent): after `free()` some node of the subtree — the node
itself — still reports `is_on_tree = true`, because `free` only clears the
flag through `parent.remove_child`, refuting the claim for this node. -/
theorem c6_counterexample :
    ¬ (∀ e ∈ (freeNode (.mk 0 true 0 (.cons (.mk 1 true 0 .nil) .nil)) false false).1,
        e.onTree = false) := by
  decide

/-- C6, amended.  For every node whose subtree flags are uniform (`b` on
every node, the source invariant) and which, when on the tree, has a parent
that is also on the tree — i.e. every node except a parentless on-tree node
such as the scene-tree root — `free()` leaves every node of the subtree
with `is_on_tree = false`, an empty children list and no parent, and emits
the `freed` signals in depth-first post-order over the copied children
lists (each node strictly after all of its children). -/
theorem c6_free_detaches_subtree (t : NodeT) (hasParent parentOn b : Bool)
    (hflags : allFlags t b = true)
    (hroot : b = true → (hasParent && parentOn) = true) :
    (∀ e ∈ (freeNode t hasParent parentOn).1,
      e.onTree = false ∧ e.childIds = [] ∧ e.parent = none) ∧
    (freeNode t hasParent parentOn).2 = postIds t := by
  constructor
  · apply freeAux_all_off
    cases b
    · simp [hflags]
    · simp [hroot rfl]
  · exact freeAux_log t (hasParent && parentOn) false

/-- C6, witness: an on-tree node with an on-tree parent and two levels of
children. -/
theorem c6_free_detaches_subtree_witness :
    (allFlags (.mk 0 true 0 (.cons (.mk 1 true 0 (.cons (.mk 2 true 0 .nil) .nil))
        (.cons (.mk 3 true 0 .nil) .nil))) true = true ∧
     (true = true → (true && true) = true)) ∧
    ((∀ e ∈ (freeNode (.mk 0 true 0 (.cons (.mk 1 true 0 (.cons (.mk 2 true 0 .nil) .nil))
        (.cons (.mk 3 true 0 .nil) .nil))) true true).1,
      e.onTree = false ∧ e.childIds = [] ∧ e.parent = none) ∧
    (freeNode (.mk 0 true 0 (.cons (.mk 1 true 0 (.cons (.mk 2 true 0 .nil) .nil))
        (.cons (.mk 3 true 0 .nil) .nil))) true true).2
      = postIds (.mk 0 true 0 (.cons (.mk 1 true 0 (.cons (.mk 2 true 0 .nil) .nil))
        (.cons (.mk 3 true 0 .nil) .nil)))) :=
  ⟨⟨by decide, fun _ => rfl⟩,
   c6_free_detaches_subtree
     (.mk 0 true 0 (.cons (.mk 1 true 0 (.cons (.mk 2 true 0 .nil) .nil))
        (.cons (.mk 3 true 0 .nil) .nil))) true true true (by decide) (fun _ => rfl)⟩

/-- C7.  `_propagate` runs the per-node updates in post-order (children
before their parent, the id sequence of the visited nodes being exactly the
post-order traversal) and a node's update runs iff the accumulated pause
state has no `STOP` bit and either has no `TREE_PAUSED` bit or the node's
own `pause_mode` carries `CONTINUE` — `STOP` suppresses regardless of
`CONTINUE`, as `runsSpec` states. -/
theorem c7_propagate_postorder_pause : ∀ (g : Nat) (t : NodeT) (acc : Nat),
    propagate g t acc = (postAcc g t acc).filterMap
      (fun e => if runsSpec e.2.1 e.2.2 = true then some e.1 else none) ∧
    (postAcc g t acc).map (fun e => e.1) = postIds t :=
  fun g t acc => ⟨propagate_eq_spec g t acc, postAcc_ids g t acc⟩

/-- C8.  Narrow-phase exactness at the spec's concrete inputs: circles of
radius 5 centered 9 apart collide and 11 apart do not (the code offsets
both global positions by the radius, which cancels for equal radii); a
radius-5 circle and a 10×10 axis-aligned rect sharing an edge (centers 10
apart on one axis) collide, and with a 6-unit gap (centers 16 apart) do
not. -/
theorem c8_narrow_phase_exactness :
    check_CC_collision 0 0 5 9 0 5 ∧ ¬ check_CC_collision 0 0 5 11 0 5 ∧
    check_CR_collision 10 0 5 0 0 10 10 = true ∧
    check_CR_collision 16 0 5 0 0 10 10 = false := by
  refine ⟨?_, ?_, by norm_num [check_CR_collision], by norm_num [check_CR_collision]⟩
  · unfold check_CC_collision
    norm_num
    rw [show ((81:ℝ)) = 9^2 by norm_num, Real.sqrt_sq (by norm_num : (0:ℝ) ≤ 9)]
    norm_num
  · unfold check_CC_collision
    norm_num
    rw [show ((121:ℝ)) = 11^2 by norm_num, Real.sqrt_sq (by norm_num : (0:ℝ) ≤ 11)]
    norm_num

/-- C9, counterexample.  A shape with base size (4,3) and rect (0,0,4,3)
whose scale is set to (2,2) through the inherited `Entity.set_scale`: no
`rect_changed` is emitted, the rect is unchanged, and the claimed invariant
`rect.size == base_size * global_scale` fails (4 ≠ 4·2; the shape is
parentless, so global scale equals local scale). -/
theorem c9_counterexample :
    (shapeSetScale ⟨(0,0),(1,1),(4,3),⟨0,0,4,3⟩⟩ ((2:ℚ),(2:ℚ))).2 = false ∧
    (shapeSetScale ⟨(0,0),(1,1),(4,3),⟨0,0,4,3⟩⟩ ((2:ℚ),(2:ℚ))).1.rect = ⟨0,0,4,3⟩ ∧
    ¬ (((shapeSetScale ⟨(0,0),(1,1),(4,3),⟨0,0,4,3⟩⟩ ((2:ℚ),(2:ℚ))).1.rect.w : ℚ) =
      ((shapeSetScale ⟨(0,0),(1,1),(4,3),⟨0,0,4,3⟩⟩ ((2:ℚ),(2:ℚ))).1.baseSize.1 : ℚ) *
        (shapeSetScale ⟨(0,0),(1,1),(4,3),⟨0,0,4,3⟩⟩ ((2:ℚ),(2:ℚ))).1.scale.1) := by
  refine ⟨rfl, rfl, ?_⟩
  simp only [shapeSetScale]
  norm_num

/-- C9, amended.  Only `rect` and `base_size` mutations emit `rect_changed`:
`set_rect` stores the rect and copies its size into `base_size` (so
`rect.size = base_size` at that moment), `set_base_size` sets
`rect.size = base_size * local scale`; mutations of `position` or `scale`
leave the rect untouched and emit nothing; the invariant
`rect.size == base_size * global scale` is re-established only by the draw
pass (`Shape._draw`). -/
theorem c9_mutation_signal_behavior (s : ShapeSt) (r : PRect) (v : Int × Int)
    (q : ℚ × ℚ) (p tp off : Int × Int) (ts : ℚ × ℚ) :
    ((shapeSetRect s r).2 = true ∧ (shapeSetRect s r).1.rect = r ∧
      (shapeSetRect s r).1.baseSize = (r.w, r.h)) ∧
    ((shapeSetBaseSize s v).2 = true ∧ (shapeSetBaseSize s v).1.baseSize = v ∧
      (shapeSetBaseSize s v).1.rect.w = pyTrunc ((v.1 : ℚ) * s.scale.1) ∧
      (shapeSetBaseSize s v).1.rect.h = pyTrunc ((v.2 : ℚ) * s.scale.2)) ∧
    ((shapeSetScale s q).2 = false ∧ (shapeSetScale s q).1.rect = s.rect) ∧
    ((shapeSetPosition s p).2 = false ∧ (shapeSetPosition s p).1.rect = s.rect) ∧
    ((shapeDraw s tp ts off).rect.w = pyTrunc ((s.baseSize.1 : ℚ) * ts.1) ∧
      (shapeDraw s tp ts off).rect.h = pyTrunc ((s.baseSize.2 : ℚ) * ts.2)) :=
  ⟨⟨rfl, rfl, rfl⟩, ⟨rfl, rfl, rfl, rfl⟩, ⟨rfl, rfl⟩, ⟨rfl, rfl⟩, ⟨rfl, rfl⟩⟩

/-- C10.  Under the registration invariant, every (mask-side, layer-side)
pair that `process_collisions()` submits to a collision test joins two
bodies of the same registered subtype, or a static-body mask with a
kinematic-body layer drawn from the bucket at the same bit index; in
particular no tested pair — hence no reported collision — ever joins an
Area with a KinematicBody, in either role. -/
theorem c10_pairing_same_subtype_or_static_kinematic
    (s : ServerSt) (ty : Nat → BType) (hw : WellTyped s ty) :
    ∀ p ∈ collisionPairs s,
      ((ty p.1 = ty p.2) ∨ (ty p.1 = .staticB ∧ ty p.2 = .kinematic ∧ StaticKinPair s p)) ∧
      ¬(ty p.1 = .area ∧ ty p.2 = .kinematic) ∧ ¬(ty p.1 = .kinematic ∧ ty p.2 = .area) := by
  intro p hp
  obtain ⟨hA, hS, hK⟩ := hw
  have main : (ty p.1 = ty p.2) ∨
      (ty p.1 = .staticB ∧ ty p.2 = .kinematic ∧ StaticKinPair s p) := by
    simp only [collisionPairs, List.mem_append, List.mem_flatMap] at hp
    rcases hp with (⟨sp, hsp, hpp⟩ | ⟨pr, hpr, hpp⟩) | ⟨sp, hsp, hpp⟩
    · left
      rcases mem_pairsOf.mp hpp with ⟨h1, h2⟩
      rw [(hA sp hsp).1 p.1 h1, (hA sp hsp).2 p.2 h2]
    · rcases hpp with hkk | hsk
      · left
        rcases mem_pairsOf.mp hkk with ⟨h1, h2⟩
        have hk1 : pr.1 ∈ s.kinematicBodies :=
          List.take_subset _ _ (List.of_mem_zip hpr).1
        rw [(hK pr.1 hk1).1 p.1 h1, (hK pr.1 hk1).2 p.2 h2]
      · right
        rcases mem_pairsOf.mp hsk with ⟨h1, h2⟩
        have hk1 : pr.1 ∈ s.kinematicBodies :=
          List.take_subset _ _ (List.of_mem_zip hpr).1
        have hs2 : pr.2 ∈ s.staticBodies :=
          List.take_subset _ _ (List.of_mem_zip hpr).2
        refine ⟨(hS pr.2 hs2).1 p.1 h1, (hK pr.1 hk1).2 p.2 h2, ?_⟩
        rcases List.mem_iff_getElem.mp hpr with ⟨i, hi, hget⟩
        have hlen : i < min s.kinematicBodies.length s.staticBodies.length := by
          rw [List.length_zip, List.length_take, List.length_take] at hi
          omega
        have hks : i < s.kinematicBodies.length := lt_of_lt_of_le hlen (by omega)
        have hss : i < s.staticBodies.length := lt_of_lt_of_le hlen (by omega)
        rw [List.getElem_zip] at hget
        have hk' : pr.1 = s.kinematicBodies[i] := by
          rw [← hget]
          simp [List.getElem_take]
        have hs' : pr.2 = s.staticBodies[i] := by
          rw [← hget]
          simp [List.getElem_take]
        refine ⟨i, hss, hks, ?_, ?_⟩
        · rw [List.get_eq_getElem, ← hs']
          exact h1
        · rw [List.get_eq_getElem, ← hk']
          exact h2
    · left
      rcases mem_pairsOf.mp hpp with ⟨h1, h2⟩
      have hk1 : sp ∈ s.kinematicBodies := List.drop_subset _ _ hsp
      rw [(hK sp hk1).1 p.1 h1, (hK sp hk1).2 p.2 h2]
  refine ⟨main, ?_, ?_⟩
  · rintro ⟨ha, hk⟩
    rcases main with h | ⟨h1, _, _⟩
    · rw [ha, hk] at h; exact absurd h (by simp)
    · rw [ha] at h1; exact absurd h1 (by simp)
  · rintro ⟨hk, ha⟩
    rcases main with h | ⟨h1, h2, _⟩
    · rw [hk, ha] at h; exact absurd h (by simp)
    · rw [ha] at h2; exact absurd h2 (by simp)

/-- C10, witness: one area space (mask body 0, layer body 1), one static
space (mask body 2), one kinematic space (layer body 3). -/
theorem c10_pairing_same_subtype_or_static_kinematic_witness :
    WellTyped ⟨[⟨[0],[1]⟩], [⟨[2],[]⟩], [⟨[],[3]⟩]⟩
      (fun n => if n ≤ 1 then BType.area else
        if n = 2 then BType.staticB else BType.kinematic) ∧
    (∀ p ∈ collisionPairs ⟨[⟨[0],[1]⟩], [⟨[2],[]⟩], [⟨[],[3]⟩]⟩,
      (((fun n => if n ≤ 1 then BType.area else
          if n = 2 then BType.staticB else BType.kinematic) p.1
        = (fun n => if n ≤ 1 then BType.area else
          if n = 2 then BType.staticB else BType.kinematic) p.2) ∨
       ((fun n => if n ≤ 1 then BType.area else
          if n = 2 then BType.staticB else BType.kinematic) p.1 = .staticB ∧
        (fun n => if n ≤ 1 then BType.area else
          if n = 2 then BType.staticB else BType.kinematic) p.2 = .kinematic ∧
        StaticKinPair ⟨[⟨[0],[1]⟩], [⟨[2],[]⟩], [⟨[],[3]⟩]⟩ p)) ∧
      ¬((fun n => if n ≤ 1 then BType.area else
          if n = 2 then BType.staticB else BType.kinematic) p.1 = .area ∧
        (fun n => if n ≤ 1 then BType.area else
          if n = 2 then BType.staticB else BType.kinematic) p.2 = .kinematic) ∧
      ¬((fun n => if n ≤ 1 then BType.area else
          if n = 2 then BType.staticB else BType.kinematic) p.1 = .kinematic ∧
        (fun n => if n ≤ 1 then BType.area else
          if n = 2 then BType.staticB else BType.kinematic) p.2 = .area)) :=
  ⟨by unfold WellTyped; decide,
   c10_pairing_same_subtype_or_static_kinematic ⟨[⟨[0],[1]⟩], [⟨[2],[]⟩], [⟨[],[3]⟩]⟩
     (fun n => if n ≤ 1 then BType.area else
       if n = 2 then BType.staticB else BType.kinematic) (by unfold WellTyped; decide)⟩

end PurpleGarden
